import Mathlib

/-!
Shallow embedding of the `scc` logging / reporting subsystem from
`src/incl/scc/report.h` (SystemC-Components), together with theorems
settling the specification claims about it.

The embedding follows the header: the `log` level enumeration and its
string table `buffer`, the `as_log` conversion, the stream extraction
and insertion operators for `log`, the `ScLogger` builder template with
its `type`/`get` members and report-emitting destructor, the logging
statement forms (`SCCTRACEALL`/`SCCTRACE`/`SCCDEBUG`/`SCCINFO` gated by
`get_log_verbosity`, and the ungated `SCCWARN`/`SCCERR`/`SCCFATAL`), and
the `stream_redirection` stringbuf adapter.  Member function bodies that
live outside the header (the per-category `get_log_verbosity(char const*)`
and the `stream_redirection` method bodies) are modelled from the spec and
say so in their doc comments.
-/

namespace scc

/-- The `log` enumeration from report.h line 33:
`enum class log { NONE, FATAL, ERROR, WARNING, INFO, DEBUG, TRACE, TRACEALL, DBGTRACE = TRACEALL }`.
`DBGTRACE` is an alias of `TRACEALL`, so the closed enumeration has eight
distinct values. -/
inductive log where
  | NONE
  | FATAL
  | ERROR
  | WARNING
  | INFO
  | DEBUG
  | TRACE
  | TRACEALL
  deriving DecidableEq

/-- The alias `DBGTRACE = TRACEALL` from the enum declaration. -/
def log.DBGTRACE : log := log.TRACEALL

/-- `static_cast<int>` of a `log` value: the integer encoding fixed by
declaration order. -/
def log.toNat : log → Nat
  | .NONE => 0
  | .FATAL => 1
  | .ERROR => 2
  | .WARNING => 3
  | .INFO => 4
  | .DEBUG => 5
  | .TRACE => 6
  | .TRACEALL => 7

/-- The string table from report.h line 31:
`static std::array<const char* const, 8> buffer = {{"NONE", "FATAL", "ERROR", "WARNING", "INFO", "DEBUG", "TRACE", "TRACEALL"}}`. -/
def buffer : List String :=
  ["NONE", "FATAL", "ERROR", "WARNING", "INFO", "DEBUG", "TRACE", "TRACEALL"]

/-- The local array `m` inside `as_log` (report.h line 41). -/
def logArray : List log :=
  [.NONE, .FATAL, .ERROR, .WARNING, .INFO, .DEBUG, .TRACE, .TRACEALL]

/-- `as_log` from report.h lines 39-43.  The C++ function asserts
`0 <= logLevel <= 7` and then indexes an 8-element array; we model the
assertion/bounds obligation by returning `none` outside the legal range
(`List.get?` is `none` exactly when the index is out of bounds of the
8-element array). -/
def as_log (logLevel : Nat) : Option log :=
  logArray.get? logLevel

/-- The scan loop of `operator>>(std::istream&, log&)` (report.h lines
53-58): find the first index `i` with `strcmp(buf.c_str(), buffer[i]) == 0`,
walking `i` upward from 0. -/
def strcmpFind (buf : String) : List String → Option Nat
  | [] => none
  | s :: rest => if s = buf then some 0 else (strcmpFind buf rest).map (· + 1)

/-- `operator>>(std::istream&, log&)` from report.h lines 50-60, modelled on
the token already extracted from the stream: if the token matches entry `i`
of `buffer` the value becomes `as_log i`, otherwise the value is left
unchanged (the operator just returns the stream without touching `val`). -/
def readLog (buf : String) (val : log) : log :=
  match strcmpFind buf buffer with
  | some i => (as_log i).getD val
  | none => val

/-- `operator<<(std::ostream&, log const&)` from report.h lines 61-64:
prints `buffer[static_cast<unsigned>(val)]`. -/
def printLog (val : log) : String :=
  (buffer.get? val.toNat).getD ""

/-! ## Verbosity levels and severities of the SystemC kernel

`sc_core::sc_verbosity` and `sc_core::sc_severity` are external enumerations
used by report.h; their values are fixed by the SystemC standard. -/

def SC_NONE : Nat := 0
def SC_LOW : Nat := 100
def SC_MEDIUM : Nat := 200
def SC_HIGH : Nat := 300
def SC_FULL : Nat := 400
def SC_DEBUG : Nat := 500

/-- `sc_core::sc_severity`: the severity a report is delivered with. -/
inductive sc_severity where
  | SC_INFO
  | SC_WARNING
  | SC_ERROR
  | SC_FATAL
  deriving DecidableEq

/-! ## Verbosity registry -/

/-- The process-wide verbosity state: the kernel's global verbosity level
(read by `get_log_verbosity()` at report.h lines 132-134) and the
per-category override table kept by the implementation behind
`get_log_verbosity(char const*)`. -/
structure VerbosityState where
  global : Nat
  overrides : String → Option Nat

/-- `get_log_verbosity()` from report.h lines 132-134: returns the kernel's
global verbosity level. -/
def get_log_verbosity0 (st : VerbosityState) : Nat :=
  st.global

/-- Modelled from the spec: `get_log_verbosity(char const* t)` is only
declared at report.h line 140; its body lives outside src.  Spec section 4.1:
"returns the per-category override if one is registered for that category,
else the global threshold". -/
def get_log_verbosityCat (st : VerbosityState) (t : String) : Nat :=
  (st.overrides t).getD st.global

/-- The call `get_log_verbosity(__VA_ARGS__)` made by the tiered statement
forms: empty argument list hits the global overload, a category argument
hits the per-category overload. -/
def effectiveLevel (st : VerbosityState) : Option String → Nat
  | none => get_log_verbosity0 st
  | some c => get_log_verbosityCat st c

/-! ## The `ScLogger` builder -/

/-- A delivered report record: the arguments of the
`sc_report_handler::report(SEVERITY, t ? t : "SystemC", os.str().c_str(),
level, file, line)` call in `~ScLogger` (report.h lines 194-196). -/
structure LogRecord where
  severity : sc_severity
  category : String
  msg : String
  verbosity : Nat
  file : String
  line : Nat
  deriving DecidableEq

/-- The state of an `ScLogger<SEVERITY>` instance (report.h lines 152-239):
the accumulating `ostringstream os`, the category pointer `t`
(`none` = `nullptr`), and the constructor-fixed `file`, `line`, `level`.
The severity template parameter is carried as a field. -/
structure ScLogger where
  severity : sc_severity
  os : String
  t : Option String
  file : String
  line : Nat
  level : Nat
  deriving DecidableEq

/-- The `ScLogger` constructor (report.h lines 160-164): `t(nullptr)`,
empty stream, stored location and verbosity. -/
def ScLogger.init (sev : sc_severity) (file : String) (line : Nat) (verbosity : Nat) : ScLogger :=
  { severity := sev, os := "", t := none, file := file, line := line, level := verbosity }

/-- Writing text into the stream returned by `get()` (report.h line 231):
`os` accumulates the writes in order. -/
def ScLogger.write (l : ScLogger) (s : String) : ScLogger :=
  { l with os := l.os ++ s }

/-- `type()` (report.h lines 202-205): resets the category to `nullptr`
and returns the same builder. -/
def ScLogger.typeClear (l : ScLogger) : ScLogger :=
  { l with t := none }

/-- `type(char const*)` / `type(std::string const&)` (report.h lines
212-225): sets the category and returns the same builder. -/
def ScLogger.typeSet (l : ScLogger) (c : String) : ScLogger :=
  { l with t := some c }

/-- `~ScLogger` (report.h lines 194-196): the destructor delivers exactly one
record, `report(SEVERITY, t ? t : "SystemC", os.str().c_str(), level, file,
line)`; an unset category falls back to `"SystemC"`. -/
def ScLogger.destroy (l : ScLogger) : LogRecord :=
  { severity := l.severity, category := l.t.getD "SystemC", msg := l.os,
    verbosity := l.level, file := l.file, line := l.line }

/-- The operations available on a live `ScLogger` between construction and
destruction: writes into the `get()` stream and the two `type` members. -/
inductive LoggerOp where
  | write (s : String)
  | typeSet (c : String)
  | typeClear

/-- One operation on a live logger: returns the new logger state and the
records the operation delivers to the report handler.  None of these member
functions calls `report`, so each delivers `[]`; only the destructor
(`ScLogger.destroy`) delivers. -/
def applyOp (l : ScLogger) : LoggerOp → ScLogger × List LogRecord
  | .write s => (l.write s, [])
  | .typeSet c => (l.typeSet c, [])
  | .typeClear => (l.typeClear, [])

/-- Running a sequence of operations on a live logger, collecting every
record delivered along the way. -/
def runOps (l : ScLogger) : List LoggerOp → ScLogger × List LogRecord
  | [] => (l, [])
  | op :: rest =>
    let r1 := applyOp l op
    let r2 := runOps r1.1 rest
    (r2.1, r1.2 ++ r2.2)

/-- A full builder lifetime: construct with the given parameters, run the
operations, destroy.  The result is every record delivered to the report
handler during the lifetime, in order. -/
def lifecycleRun (sev : sc_severity) (file : String) (line : Nat) (verbosity : Nat)
    (ops : List LoggerOp) : List LogRecord :=
  let r := runOps (ScLogger.init sev file line verbosity) ops
  r.2 ++ [r.1.destroy]

/-! ## The logging statement forms (report.h lines 245-267)

`SCCTRACEALL`/`SCCTRACE`/`SCCDEBUG`/`SCCINFO` expand to
`if(get_log_verbosity(args) >= THRESHOLD)
 ScLogger<SC_INFO>(file, line, THRESHOLD/10).type(args).get()` —
the guard runs before any `ScLogger` is constructed.
`SCCWARN`/`SCCERR`/`SCCFATAL` expand to
`ScLogger<SEV>(file, line, SC_MEDIUM).type(args).get()` with no guard. -/

/-- The four tiered (INFO-severity) statement forms. -/
inductive TieredStmt where
  | SCCTRACEALL
  | SCCTRACE
  | SCCDEBUG
  | SCCINFO
  deriving DecidableEq

/-- The fixed verbosity threshold each tiered form compares against:
`SC_DEBUG` for `SCCTRACEALL`, `SC_FULL` for `SCCTRACE`, `SC_HIGH` for
`SCCDEBUG`, `SC_MEDIUM` for `SCCINFO` (report.h lines 246, 250, 254, 258). -/
def requestedVerbosity : TieredStmt → Nat
  | .SCCTRACEALL => SC_DEBUG
  | .SCCTRACE => SC_FULL
  | .SCCDEBUG => SC_HIGH
  | .SCCINFO => SC_MEDIUM

/-- The `.type(__VA_ARGS__)` call each statement form makes right after
construction: with no argument it is `type()` (clear), with a category
argument it is `type(arg)` (set). -/
def applyTag (l : ScLogger) : Option String → ScLogger
  | none => l.typeClear
  | some c => l.typeSet c

/-- One execution of a tiered statement form: the guard
`get_log_verbosity(args) >= requested` runs first; only when it passes is an
`ScLogger<SC_INFO>` constructed (with verbosity `requested/10`), tagged,
written to, and destroyed.  The result counts the `ScLogger` instances
constructed and lists the records delivered. -/
def runTiered (m : TieredStmt) (st : VerbosityState) (cat : Option String)
    (file : String) (line : Nat) (writes : List String) : Nat × List LogRecord :=
  if requestedVerbosity m ≤ effectiveLevel st cat then
    let l0 := applyTag (ScLogger.init .SC_INFO file line (requestedVerbosity m / 10)) cat
    let r := runOps l0 (writes.map .write)
    (1, r.2 ++ [r.1.destroy])
  else (0, [])

/-- The three ungated statement forms. -/
inductive AlwaysStmt where
  | SCCWARN
  | SCCERR
  | SCCFATAL
  deriving DecidableEq

/-- The severity template argument of each ungated form (report.h lines
261-267). -/
def alwaysSeverity : AlwaysStmt → sc_severity
  | .SCCWARN => .SC_WARNING
  | .SCCERR => .SC_ERROR
  | .SCCFATAL => .SC_FATAL

/-- One execution of `SCCWARN`/`SCCERR`/`SCCFATAL`: no guard consults the
verbosity state; an `ScLogger` at the form's severity with verbosity
`SC_MEDIUM` is always constructed, tagged, written to, and destroyed. -/
def runAlways (m : AlwaysStmt) (cat : Option String)
    (file : String) (line : Nat) (writes : List String) : Nat × List LogRecord :=
  let l0 := applyTag (ScLogger.init (alwaysSeverity m) file line SC_MEDIUM) cat
  let r := runOps l0 (writes.map .write)
  (1, r.2 ++ [r.1.destroy])

/-! ## The `stream_redirection` adapter (report.h lines 277-293)

Only the class declaration is in the header; the bodies of the constructor,
`xsputn`, `sync`, `reset` and the destructor live outside src and are
modelled from the spec (sections 4.3 and 8). -/

/-- A record forwarded by a redirection session: one completed line, at the
session's fixed level, with the default category. -/
structure RedirRecord where
  msg : String
  level : log
  category : String
  deriving DecidableEq

/-- Modelled from the spec: the state of a `stream_redirection` session and
of the stream it captured.  `sessionBuf` is the line-accumulation buffer of
the stringbuf, `old_buf` the captured original buffer of the stream
(`none` = `nullptr`, report.h line 292), `streamBuf` the buffer currently
installed on the captured stream (buffers are identified by `Nat` ids),
`emitted` the records forwarded to the sink so far, and `restoreCount`
counts how many times the original buffer has been restored. -/
structure stream_redirection where
  sessionBuf : String
  level : log
  old_buf : Option Nat
  streamBuf : Nat
  emitted : List RedirRecord
  restoreCount : Nat
  deriving DecidableEq

/-- Modelled from the spec: the `stream_redirection(std::ostream&, scc::log)`
constructor captures the stream's current buffer `orig` into `old_buf` and
installs its own buffer `sid` on the stream (spec section 4.3 `start`). -/
def stream_redirection.start (orig sid : Nat) (lvl : log) : stream_redirection :=
  { sessionBuf := "", level := lvl, old_buf := some orig, streamBuf := sid,
    emitted := [], restoreCount := 0 }

/-- Modelled from the spec: one intercepted character.  "whenever a newline
is seen ... the buffered content up to that point is forwarded as one log
record at the session's fixed level with a null/default category"; any other
character stays buffered. -/
def stream_redirection.putc (st : stream_redirection) (c : Char) : stream_redirection :=
  if c = '\n' then
    { st with sessionBuf := "",
              emitted := st.emitted ++ [⟨st.sessionBuf, st.level, "SystemC"⟩] }
  else
    { st with sessionBuf := st.sessionBuf.push c }

/-- Modelled from the spec: `xsputn` intercepts a write of `s` character by
character (spec section 4.3 interception semantics). -/
def stream_redirection.xsputn (st : stream_redirection) (s : String) : stream_redirection :=
  s.data.foldl stream_redirection.putc st

/-- Modelled from the spec: `sync` (an explicit flush request) forwards any
partial buffered content as one record; with nothing buffered it forwards
nothing (spec section 8: a partial line is delivered on flush). -/
def stream_redirection.sync (st : stream_redirection) : stream_redirection :=
  if st.sessionBuf = "" then st
  else
    { st with sessionBuf := "",
              emitted := st.emitted ++ [⟨st.sessionBuf, st.level, "SystemC"⟩] }

/-- Modelled from the spec: `reset()` flushes pending content and restores
the captured stream's original buffer; "must be safe to call multiple times
(idempotent)" — with `old_buf` already surrendered it is a no-op
(spec sections 4.3 and 8). -/
def stream_redirection.reset (st : stream_redirection) : stream_redirection :=
  match st.old_buf with
  | some b =>
    let st1 := st.sync
    { st1 with streamBuf := b, old_buf := none, restoreCount := st1.restoreCount + 1 }
  | none => st

/-- Modelled from the spec: `~stream_redirection` — restoration is
"automatically invoked on destruction if not already done", i.e. the
destructor calls `reset()` (spec section 4.3). -/
def stream_redirection.dtor (st : stream_redirection) : stream_redirection :=
  st.reset

/-! ## Chains of `type` calls (for the fluent-interface law) -/

/-- One call in a chain of `type` member calls on a builder:
`type(name)` or the argument-less `type()`. -/
inductive TypeCall where
  | set (c : String)
  | clear
  deriving DecidableEq

/-- Executing one `type` call on the builder returned by the previous call
(each call returns `*this`, so the chain acts on one and the same
builder). -/
def applyType (l : ScLogger) : TypeCall → ScLogger
  | .set c => l.typeSet c
  | .clear => l.typeClear

/-- The category value a single `type` call stores into the builder. -/
def typeEffect : TypeCall → Option String
  | .set c => some c
  | .clear => none

/-- Executing a whole chain of `type` calls left to right. -/
def chainRun (l : ScLogger) (calls : List TypeCall) : ScLogger :=
  calls.foldl applyType l

/-! ## Helper lemmas -/

/-- The scan loop of `operator>>` finds nothing when the token matches no
table entry. -/
theorem strcmpFind_eq_none (buf : String) (l : List String) (h : buf ∉ l) :
    strcmpFind buf l = none := by
  induction l with
  | nil => rfl
  | cons s rest ih =>
    have hs : ¬ s = buf := by
      intro e
      exact h (e ▸ List.mem_cons_self s rest)
    have hrest : buf ∉ rest := fun m => h (List.mem_cons_of_mem s m)
    simp [strcmpFind, hs, ih hrest]

/-- `String.join` unfolds on a cons cell. -/
theorem join_cons_eq (w : String) (ws : List String) :
    String.join (w :: ws) = w ++ String.join ws := by
  apply String.ext
  simp

/-- No member function of a live `ScLogger` delivers a record: every record
list produced while the logger is alive is empty, whatever the operations. -/
theorem runOps_no_records (l : ScLogger) (ops : List LoggerOp) :
    (runOps l ops).2 = [] := by
  induction ops generalizing l with
  | nil => rfl
  | cons op rest ih => cases op <;> simp [runOps, applyOp, ih]

/-- Running a sequence of writes appends their concatenation, in order, to
the accumulated stream, and delivers nothing. -/
theorem runOps_writes (l : ScLogger) (ws : List String) :
    runOps l (ws.map LoggerOp.write) =
      ({ l with os := l.os ++ String.join ws }, []) := by
  induction ws generalizing l with
  | nil => simp [runOps, String.join]
  | cons w rest ih =>
    simp [runOps, applyOp, ScLogger.write, ih, join_cons_eq, String.append_assoc]

/-! ## Claim theorems -/

/-- C4: for every value of the `log` enumeration, `operator<<` formats it to
its canonical all-caps string, and `operator>>` parses that string back to
the original value, whatever value the parse target held before: the
format-then-parse round trip is the identity on the closed enumeration. -/
theorem log_string_roundtrip :
    (printLog log.NONE = "NONE" ∧ printLog log.FATAL = "FATAL" ∧
     printLog log.ERROR = "ERROR" ∧ printLog log.WARNING = "WARNING" ∧
     printLog log.INFO = "INFO" ∧ printLog log.DEBUG = "DEBUG" ∧
     printLog log.TRACE = "TRACE" ∧ printLog log.TRACEALL = "TRACEALL") ∧
    ∀ v w : log, readLog (printLog v) w = v := by
  refine ⟨⟨rfl, rfl, rfl, rfl, rfl, rfl, rfl, rfl⟩, ?_⟩
  intro v w
  cases v <;> rfl

/-- C5: a token that is not a case-sensitive exact match of one of the eight
canonical level names leaves the parsed value unchanged — `operator>>`
returns without assigning, so detection is only possible through the
stream's state, never through the value or an exception. -/
theorem readLog_unknown_token (buf : String) (val : log) (h : buf ∉ buffer) :
    readLog buf val = val := by
  unfold readLog
  rw [strcmpFind_eq_none buf buffer h]

/-- Witness for C5 at the lowercase (hence non-matching) token "info". -/
theorem readLog_unknown_token_witness :
    "info" ∉ buffer ∧ readLog "info" log.WARNING = log.WARNING :=
  ⟨by decide, readLog_unknown_token "info" log.WARNING (by decide)⟩

/-- C10: for every integer `0 ≤ i ≤ 7`, `as_log i` stays inside the
assertion's range and the 8-element array bound (it returns `some` value)
and yields the level whose integer encoding is `i`; conversely `as_log`
inverts `static_cast<int>` on every level value. -/
theorem as_log_range_and_inverse :
    (∀ i < 8, (as_log i).map log.toNat = some i) ∧
    ∀ v : log, as_log v.toNat = some v := by
  constructor
  · decide
  · intro v
    cases v <;> rfl

/-- Witness for C10 at `i = 5` and `v = log.DEBUG`. -/
theorem as_log_range_and_inverse_witness :
    (as_log 5).map log.toNat = some 5 ∧ as_log (log.toNat log.DEBUG) = some log.DEBUG :=
  ⟨as_log_range_and_inverse.1 5 (by decide), as_log_range_and_inverse.2 log.DEBUG⟩

/-- C3: a full `ScLogger` lifetime — construct, write text `N` times through
`get()`, destroy — delivers exactly one record, whose message is the
concatenation of the `N` writes in order (here with the category left
unset); and no operation on a live logger delivers any record at all
(arbitrary mixes of writes and `type` calls deliver nothing before the
destructor runs). -/
theorem builder_single_flush (sev : sc_severity) (file : String) (line : Nat)
    (verbosity : Nat) (writes : List String) (l : ScLogger) (ops : List LoggerOp) :
    lifecycleRun sev file line verbosity (writes.map .write) =
      [{ severity := sev, category := "SystemC", msg := String.join writes,
         verbosity := verbosity, file := file, line := line }] ∧
    (runOps l ops).2 = [] := by
  constructor
  · simp [lifecycleRun, runOps_writes, ScLogger.init, ScLogger.destroy]
  · exact runOps_no_records l ops

/-- C8: the record delivered by `~ScLogger` carries the fixed fallback
category `"SystemC"` exactly when the tag is unset at destruction, and the
tag itself when set. -/
theorem destroy_category_default (l : ScLogger) :
    (l.t = none → l.destroy.category = "SystemC") ∧
    ∀ c : String, l.t = some c → l.destroy.category = c := by
  constructor
  · intro h
    simp [ScLogger.destroy, h]
  · intro c h
    simp [ScLogger.destroy, h]

/-- Witness for C8: an untouched builder falls back to `"SystemC"`, one
tagged `"BUS"` reports `"BUS"`. -/
theorem destroy_category_default_witness :
    ((ScLogger.init .SC_INFO "f.cpp" 1 200).t = none ∧
      (ScLogger.init .SC_INFO "f.cpp" 1 200).destroy.category = "SystemC") ∧
    (((ScLogger.init .SC_INFO "f.cpp" 1 200).typeSet "BUS").t = some "BUS" ∧
      ((ScLogger.init .SC_INFO "f.cpp" 1 200).typeSet "BUS").destroy.category = "BUS") :=
  ⟨⟨rfl, (destroy_category_default _).1 rfl⟩,
   ⟨rfl, (destroy_category_default _).2 "BUS" rfl⟩⟩

/-- A chain of `type` calls changes nothing but the tag field of the
builder it runs on. -/
theorem chainRun_preserves (l : ScLogger) (calls : List TypeCall) :
    (chainRun l calls).severity = l.severity ∧
    (chainRun l calls).os = l.os ∧
    (chainRun l calls).file = l.file ∧
    (chainRun l calls).line = l.line ∧
    (chainRun l calls).level = l.level := by
  induction calls generalizing l with
  | nil => exact ⟨rfl, rfl, rfl, rfl, rfl⟩
  | cons c rest ih =>
    cases c <;>
      simpa [chainRun, applyType, ScLogger.typeSet, ScLogger.typeClear] using ih _

/-- C9: a chain of `type(name)` / `type()` calls acts on one and the same
builder (only the tag field changes; stream, location, severity and level
are untouched), and the category of the delivered record is decided solely
by the last call of the chain: its argument if it set one, the default
`"SystemC"` if the last call was the argument-less `type()`. -/
theorem type_chain_last_wins (l : ScLogger) (pre : List TypeCall) (lastCall : TypeCall) :
    (chainRun l (pre ++ [lastCall])).t = typeEffect lastCall ∧
    (chainRun l (pre ++ [lastCall])).destroy.category =
      (typeEffect lastCall).getD "SystemC" ∧
    (chainRun l (pre ++ [lastCall])).severity = l.severity ∧
    (chainRun l (pre ++ [lastCall])).os = l.os ∧
    (chainRun l (pre ++ [lastCall])).file = l.file ∧
    (chainRun l (pre ++ [lastCall])).line = l.line ∧
    (chainRun l (pre ++ [lastCall])).level = l.level := by
  have h : chainRun l (pre ++ [lastCall]) = applyType (chainRun l pre) lastCall := by
    simp [chainRun, List.foldl_append]
  have hp := chainRun_preserves l pre
  rw [h]
  cases lastCall <;>
    simp [applyType, ScLogger.typeSet, ScLogger.typeClear, ScLogger.destroy, typeEffect,
      hp.1, hp.2.1, hp.2.2.1, hp.2.2.2.1, hp.2.2.2.2]

/-- C1: a tiered statement (`SCCTRACEALL`/`SCCTRACE`/`SCCDEBUG`/`SCCINFO`)
delivers a record exactly when the effective verbosity level of its category
(per-category override if present, else the global threshold) is at least
the form's fixed requested level; the number of `ScLogger` instances
constructed is 1 when the guard passes and 0 when it fails — a suppressed
statement constructs no logger at all — and every constructed logger
delivers exactly one record. -/
theorem tiered_stmt_gating (m : TieredStmt) (st : VerbosityState) (cat : Option String)
    (file : String) (line : Nat) (writes : List String) :
    ((runTiered m st cat file line writes).2 ≠ [] ↔
      requestedVerbosity m ≤ effectiveLevel st cat) ∧
    (runTiered m st cat file line writes).1 =
      (if requestedVerbosity m ≤ effectiveLevel st cat then 1 else 0) ∧
    (runTiered m st cat file line writes).2.length =
      (runTiered m st cat file line writes).1 := by
  by_cases h : requestedVerbosity m ≤ effectiveLevel st cat <;>
    simp [runTiered, h, runOps_no_records]

/-- C2: a statement through `SCCWARN`, `SCCERR` or `SCCFATAL` consults no
verbosity state (the forms expand without any guard): whatever the registry
holds, exactly one `ScLogger` is constructed and exactly one record is
delivered, at the form's severity, with the written text and the chosen (or
default) category. -/
theorem always_stmt_unfiltered (m : AlwaysStmt) (st : VerbosityState)
    (cat : Option String) (file : String) (line : Nat) (writes : List String) :
    (runAlways m cat file line writes).1 = 1 ∧
    (runAlways m cat file line writes).2 =
      [{ severity := alwaysSeverity m, category := cat.getD "SystemC",
         msg := String.join writes, verbosity := SC_MEDIUM,
         file := file, line := line }] := by
  constructor
  · rfl
  · cases cat <;>
      simp [runAlways, applyTag, runOps_writes, ScLogger.init, ScLogger.destroy,
        ScLogger.typeSet, ScLogger.typeClear]

/-- C6: under an active redirection session, writing `"abc\ndef\n"` delivers
exactly the two records `"abc"` and `"def"`, each at the session's fixed
level with the default category; writing `"abc"` alone delivers nothing and
leaves `"abc"` buffered, and a subsequent flush (`sync`) or `reset()`
delivers the single partial record `"abc"`. -/
theorem redirection_line_splitting (orig sid : Nat) (lvl : log) :
    ((stream_redirection.start orig sid lvl).xsputn "abc\ndef\n").emitted =
      [⟨"abc", lvl, "SystemC"⟩, ⟨"def", lvl, "SystemC"⟩] ∧
    ((stream_redirection.start orig sid lvl).xsputn "abc").emitted = [] ∧
    ((stream_redirection.start orig sid lvl).xsputn "abc").sessionBuf = "abc" ∧
    (((stream_redirection.start orig sid lvl).xsputn "abc").sync).emitted =
      [⟨"abc", lvl, "SystemC"⟩] ∧
    (((stream_redirection.start orig sid lvl).xsputn "abc").reset).emitted =
      [⟨"abc", lvl, "SystemC"⟩] :=
  ⟨rfl, rfl, rfl, rfl, rfl⟩

/-- C7: `reset()` on a redirection session is idempotent — the second call
changes nothing and restores nothing further — the destructor performs the
very same `reset()` automatically, and on a fresh session a `reset()`
restores the captured stream's original buffer exactly once (a repeated
call leaves the restoration count at one). -/
theorem redirection_reset_idempotent (st : stream_redirection)
    (orig sid : Nat) (lvl : log) :
    st.reset.reset = st.reset ∧
    st.dtor = st.reset ∧
    (stream_redirection.start orig sid lvl).reset.streamBuf = orig ∧
    (stream_redirection.start orig sid lvl).reset.restoreCount = 1 ∧
    (stream_redirection.start orig sid lvl).reset.reset.restoreCount = 1 := by
  refine ⟨?_, rfl, rfl, rfl, rfl⟩
  cases h : st.old_buf <;>
    simp [stream_redirection.reset, stream_redirection.sync, h]

end scc
